import Mathlib

/-!
# Verification of the metrics-aggregation engine of `aps_wallet_dashboard1`

Shallow embedding of `src/utils/Analyzer.py` (class
`AgentPerformanceAnalyzerUltraFast`): the loading/normalisation pipeline
(`_load_onboarding_data`, `_load_transaction_data`) and the metric
computations (`_calculate_agent_metrics`, `_calculate_transaction_metrics`,
`_calculate_performance_metrics`, `calculate_all_metrics`).

Tables are modelled as a list of rows of optional cells together with a
column-presence record: pandas distinguishes an absent column (access
raises `KeyError`) from a present column holding missing values (`NaN`),
so every function that indexes a column checks the presence flag first and
fails with `Except.error` exactly where the Python code would raise.
-/

namespace WalletDashboard

/-- Case-insensitive-free substring test: `strContains hay needle` is true
iff `needle` occurs contiguously in `hay` (`pandas.Series.str.contains`
with a keyword containing no regex metacharacters). -/
def strContains (hay needle : String) : Bool :=
  (List.range (hay.toList.length + 1)).any
    (fun i => needle.toList.isPrefixOf (hay.toList.drop i))

/-- Python `str.upper()` (kernel-computable, characterwise). -/
def strUpper (s : String) : String := ⟨s.data.map Char.toUpper⟩

/-- Python `str.strip()`: drop leading and trailing whitespace
(kernel-computable). -/
def strTrim (s : String) : String :=
  ⟨((s.data.dropWhile Char.isWhitespace).reverse.dropWhile
      Char.isWhitespace).reverse⟩

/-- The `AnalysisConfig` from `Analyzer.py` lines 13-22. -/
structure AnalysisConfig where
  year : Int
  minDepositsForActive : Nat
  depositKeywords : List String
deriving DecidableEq, Repr

/-- The default configuration: year 2025, threshold 20,
keywords DEPOSIT, FUNDING, LOAD, CREDIT. -/
def defaultConfig : AnalysisConfig :=
  { year := 2025
    minDepositsForActive := 20
    depositKeywords := ["DEPOSIT", "FUNDING", "LOAD", "CREDIT"] }

/-- A timestamp as far as the aggregation logic consumes it: the `Year` and
`Month` fields pandas derives from a successfully parsed `Created At` /
`Registration Date` cell.  The month of a real date is always 1..12; we
store it as `Fin 12` (month number minus one). -/
structure Stamp where
  year : Int
  monthIx : Fin 12
deriving DecidableEq, Repr

/-- The month number (1..12) of a parsed timestamp. -/
def Stamp.month (s : Stamp) : Nat := s.monthIx.val + 1

/-- One row of the onboarding table, post CSV parse.  Every cell is
optional: `none` is pandas `NaN`/`NaT`.  `regStamp` is the parsed
`Registration Date` (`none` when `pd.to_datetime(..., errors='coerce')`
yields `NaT`). -/
structure OnbRow where
  accountId : Option String
  entity : Option String
  status : Option String
  regStamp : Option Stamp
deriving DecidableEq, Repr

/-- Which columns the onboarding table actually has. -/
structure OnbCols where
  accountId : Bool
  entity : Bool
  status : Bool
  regDate : Bool
deriving DecidableEq, Repr

/-- The onboarding table: column-presence flags plus rows.  A cell of an
absent column is never inspected (the code path checks presence first),
mirroring pandas where such a cell does not exist at all. -/
structure OnbTable where
  cols : OnbCols
  rows : List OnbRow
deriving DecidableEq, Repr

/-- One row of the transaction table, post CSV parse.  `createdAt` is the
parsed `Created At` timestamp; `amount` the value `pd.to_numeric(...,
errors='coerce')` produces (`none` for non-numeric text); `status` is the
raw `Transaction Status` cell — `Analyzer.py` never upper-cases or strips
this column (its `text_cols` list at line 114 excludes it). -/
structure TxRow where
  userId : Option String
  parentUserId : Option String
  entityName : Option String
  serviceName : Option String
  transactionType : Option String
  productName : Option String
  createdAt : Option Stamp
  amount : Option Int
  status : Option String
deriving DecidableEq, Repr

/-- Which columns the transaction table actually has. -/
structure TxCols where
  userId : Bool
  parentUserId : Bool
  entityName : Bool
  serviceName : Bool
  transactionType : Bool
  productName : Bool
  createdAt : Bool
  amount : Bool
  status : Bool
deriving DecidableEq, Repr

/-- The transaction table. -/
structure TxTable where
  cols : TxCols
  rows : List TxRow
deriving DecidableEq, Repr

/-- Pandas `str.upper().str.strip()` applied to an optional cell (`NaN` stays
`NaN`). -/
def normCell (c : Option String) : Option String :=
  c.map (fun s => strUpper (strTrim s))

/-- Cleaning step of `_load_onboarding_data` (lines 72-80): upper/strip
`Entity` and `Status`, strip `Account ID`; `Registration Date` is already
held parsed in the row model. -/
def loadOnboardingRow (r : OnbRow) : OnbRow :=
  { r with
    entity := normCell r.entity
    status := normCell r.status
    accountId := r.accountId.map strTrim }

/-- Function `_load_onboarding_data` on the whole table. -/
def loadOnboarding (t : OnbTable) : OnbTable :=
  { t with rows := t.rows.map loadOnboardingRow }

/-- Text cleaning of `_load_transaction_data` (lines 113-117): upper/strip
`Entity Name`, `Service Name`, `Transaction Type`, `Product Name`. -/
def loadTxRow (r : TxRow) : TxRow :=
  { r with
    entityName := normCell r.entityName
    serviceName := normCell r.serviceName
    transactionType := normCell r.transactionType
    productName := normCell r.productName }

/-- One `df[col].str.contains(keyword, na=False, case=False)` test on a
single cell: `NaN` never matches, the match is a case-insensitive
substring test. -/
def cellMatches (kw : String) (c : Option String) : Bool :=
  match c with
  | none => false
  | some s => strContains (strUpper s) (strUpper kw)

/-- Deposit mask of `_load_transaction_data` (lines 122-127): a row is a
deposit iff some configured keyword occurs (case-insensitive) in some of
the columns `Service Name`, `Transaction Type`, `Product Name` that the
table has. -/
def rowIsDeposit (cfg : AnalysisConfig) (cols : TxCols) (r : TxRow) : Bool :=
  cfg.depositKeywords.any (fun kw =>
    (cols.serviceName && cellMatches kw r.serviceName) ||
    (cols.transactionType && cellMatches kw r.transactionType) ||
    (cols.productName && cellMatches kw r.productName))

/-- The `Year` cell pandas derives from `Created At` (`NaN` when the
timestamp did not parse). -/
def rowYear (r : TxRow) : Option Int := r.createdAt.map Stamp.year

/-- The `Month` cell pandas derives from `Created At`. -/
def rowMonth (r : TxRow) : Option Nat := r.createdAt.map Stamp.month

/-- Function `_load_transaction_data` (lines 84-135): clean the text columns, carve
out the deposit subset (NOT filtered by year), and filter the main table to
`config.year` (rows with unparseable `Created At` have `Year = NaN` and are
dropped; when the `Created At` column is absent the year-filtered table is
the empty `pd.DataFrame()`, which has no columns at all). -/
def loadTransactionData (cfg : AnalysisConfig) (t : TxTable) :
    TxTable × TxTable :=
  let cleaned : List TxRow := t.rows.map loadTxRow
  let depositRows := cleaned.filter (rowIsDeposit cfg t.cols)
  let depositDf : TxTable := { cols := t.cols, rows := depositRows }
  let currentYearDf : TxTable :=
    if t.cols.createdAt then
      { cols := t.cols
        rows := cleaned.filter (fun r => rowYear r == some cfg.year) }
    else
      { cols :=
          { userId := false, parentUserId := false, entityName := false
            serviceName := false, transactionType := false
            productName := false, createdAt := false, amount := false
            status := false }
        rows := [] }
  (currentYearDf, depositDf)

/-- The fixed not-active status set of `_calculate_agent_metrics`
(line 183). -/
def terminatedStatus : List String :=
  ["TERMINATED", "BLOCKED", "SUSPENDED", "INACTIVE"]

/-- The mask `~df['Status'].isin(terminated_status)` on one row: `NaN` is not in the
set, so a missing status is active. -/
def rowIsActive (r : OnbRow) : Bool :=
  match r.status with
  | none => true
  | some s => !(terminatedStatus.contains s)

/-- Number of distinct values of a list (pandas `unique` / `set`). -/
def distinctCount {α : Type} [DecidableEq α] (l : List α) : Nat :=
  l.dedup.length

/-- The flat metrics record `calculate_all_metrics` produces (the subset of
fields carrying aggregation logic; `agent_hierarchy`,
`performance_metrics`, `avg_transaction_time_minutes` are constant
placeholders and `top_performing_agents` is ranking presentation).
`monthlyActiveUsers`/`monthlyDeposits` hold twelve entries, index `i`
being month `i+1`.  `agentsWithoutTellers` is the Python
`max(0, ...)` over signed integers, so it is kept as `Int`. -/
structure MetricsRecord where
  year : Int
  totalActiveAgents : Nat
  totalActiveTellers : Nat
  agentsWithTellers : Nat
  agentsWithoutTellers : Int
  onboardedTotal : Nat
  onboardedAgents : Nat
  onboardedTellers : Nat
  activeUsersOverall : Nat
  inactiveUsersOverall : Nat
  monthlyActiveUsers : List Nat
  monthlyDeposits : List Nat
  transactionVolume : Int
  successfulTransactions : Nat
  failedTransactions : Nat
deriving DecidableEq, Repr

/-- The zero-initialised results dict (`Analyzer.py` lines 146-166,
`large_file_analyzer.py` lines 331-348). -/
def defaultMetrics (cfg : AnalysisConfig) : MetricsRecord :=
  { year := cfg.year
    totalActiveAgents := 0
    totalActiveTellers := 0
    agentsWithTellers := 0
    agentsWithoutTellers := 0
    onboardedTotal := 0
    onboardedAgents := 0
    onboardedTellers := 0
    activeUsersOverall := 0
    inactiveUsersOverall := 0
    monthlyActiveUsers := List.replicate 12 0
    monthlyDeposits := List.replicate 12 0
    transactionVolume := 0
    successfulTransactions := 0
    failedTransactions := 0 }

/-- Pandas `value_counts().get(v, 0)` on the `Entity` column of a row subset. -/
def countEntity (l : List OnbRow) (v : String) : Nat :=
  (l.filter (fun r => r.entity == some v)).length

/-- Pandas `value_counts().get(v, 0)` on the raw `Transaction Status` column. -/
def countStatus (l : List TxRow) (v : String) : Nat :=
  (l.filter (fun r => r.status == some v)).length

/-- Number of deposit rows falling in month `m` (1..12). -/
def monthCount (l : List TxRow) (m : Nat) : Nat :=
  (l.filter (fun r => rowMonth r == some m)).length

/-- Number of deposit rows of user `u`
(`value_counts` of `User Identifier`). -/
def userCount (l : List TxRow) (u : String) : Nat :=
  (l.filter (fun r => r.userId == some u)).length

/-- The distinct non-null `User Identifier` values of a deposit subset
(the index of its `value_counts`). -/
def depUsers (l : List TxRow) : List String :=
  (l.filterMap (fun r => r.userId)).dedup

/-- Function `_calculate_agent_metrics` (`Analyzer.py` lines 179-203).  The columns
`Status`, `Entity` and `Registration Date` are indexed unconditionally, in
that order, so each raises `KeyError` when absent. -/
def calcAgentMetrics (cfg : AnalysisConfig) (onb : OnbTable)
    (m : MetricsRecord) : Except String MetricsRecord :=
  if !onb.cols.status then .error "KeyError: Status" else
  let dfActive := onb.rows.filter rowIsActive
  if !onb.cols.entity then .error "KeyError: Entity" else
  if !onb.cols.regDate then .error "KeyError: Registration Date" else
  let dfOnboarded := onb.rows.filter
    (fun r => (r.regStamp.map Stamp.year == some cfg.year) && rowIsActive r)
  .ok { m with
        totalActiveAgents := countEntity dfActive "AGENT"
        totalActiveTellers := countEntity dfActive "AGENT TELLER"
        onboardedTotal := dfOnboarded.length
        onboardedAgents := countEntity dfOnboarded "AGENT"
        onboardedTellers := countEntity dfOnboarded "AGENT TELLER" }

/-- Function `_calculate_transaction_metrics` (`Analyzer.py` lines 205-239).
`txYear` is `self.transaction_df` (the year-filtered table), `dep` is
`self.deposit_df` — `none` models the attribute not existing (the
`hasattr` test at line 234).  The function resets its four keys to the
defaults first, returns them untouched when the year table is empty, and
for a non-empty deposit table indexes its `Month` column (present iff
`Created At` was). -/
def calcTransactionMetrics (_cfg : AnalysisConfig) (txYear : TxTable)
    (dep : Option TxTable) (m : MetricsRecord) :
    Except String MetricsRecord :=
  let base := { m with
                transactionVolume := 0
                successfulTransactions := 0
                failedTransactions := 0
                monthlyDeposits := List.replicate 12 0 }
  if txYear.rows.isEmpty then .ok base else
  let vol : Int :=
    if txYear.cols.amount then (txYear.rows.filterMap (fun r => r.amount)).sum
    else 0
  let succ : Nat :=
    if txYear.cols.status then
      countStatus txYear.rows "SUCCESS" + countStatus txYear.rows "COMPLETED"
    else 0
  let fail : Nat :=
    if txYear.cols.status then
      countStatus txYear.rows "FAILED" + countStatus txYear.rows "REJECTED"
    else 0
  let withCounts := { base with
                      transactionVolume := vol
                      successfulTransactions := succ
                      failedTransactions := fail }
  match dep with
  | none => .ok withCounts
  | some d =>
    if d.rows.isEmpty then .ok withCounts
    else if !d.cols.createdAt then .error "KeyError: Month"
    else .ok { withCounts with
               monthlyDeposits :=
                 (List.range 12).map (fun i => monthCount d.rows (i + 1)) }

/-- Function `_calculate_performance_metrics` (`Analyzer.py` lines 241-287).  For a
non-empty deposit table the function indexes `Parent User Identifier`,
the onboarding `Entity`/`Status`/`Account ID`, then `User Identifier` and
`Month`, raising `KeyError` for whichever is absent first.  The monthly
loop at lines 269-276 then assigns into
`metrics['monthly_active_users'][month]`, but the local `metrics` dict
(lines 243-247) has no `monthly_active_users` key, so the first month with
a non-empty deposit slice raises `KeyError: monthly_active_users`. -/
def calcPerformanceMetrics (cfg : AnalysisConfig) (onb : OnbTable)
    (dep : Option TxTable) (m : MetricsRecord) :
    Except String MetricsRecord :=
  match dep with
  | none => .ok m
  | some d =>
    if d.rows.isEmpty then .ok m else
    if !d.cols.parentUserId then .error "KeyError: Parent User Identifier"
    else
    let withTellers := distinctCount (d.rows.filterMap (fun r => r.parentUserId))
    if !onb.cols.entity then .error "KeyError: Entity" else
    if !onb.cols.status then .error "KeyError: Status" else
    if !onb.cols.accountId then .error "KeyError: Account ID" else
    let activeAgents := distinctCount
      ((onb.rows.filter
          (fun r => r.entity == some "AGENT" && rowIsActive r)).map
        (fun r => r.accountId))
    let withoutTellers : Int := max 0 ((activeAgents : Int) - (withTellers : Int))
    if !d.cols.userId then .error "KeyError: User Identifier" else
    let users := depUsers d.rows
    let activeOverall :=
      (users.filter (fun u => cfg.minDepositsForActive ≤ userCount d.rows u)).length
    let inactiveOverall :=
      (users.filter (fun u => userCount d.rows u < cfg.minDepositsForActive)).length
    if !d.cols.createdAt then .error "KeyError: Month" else
    if (List.range 12).any (fun i => !(decide (monthCount d.rows (i + 1) = 0)))
    then .error "KeyError: monthly_active_users"
    else
      .ok { m with
            agentsWithTellers := withTellers
            agentsWithoutTellers := withoutTellers
            activeUsersOverall := activeOverall
            inactiveUsersOverall := inactiveOverall }

/-- The in-process state of an `AgentPerformanceAnalyzerUltraFast`: the two
dataframes (`None` until set), the `deposit_df` attribute (`none` models
the attribute not existing, as when data was injected by `set_data`), and
the `_processed_data` memoisation cache.  The Python cache key is
`hash(str(onboarding_df) + str(transaction_df))`; identical tables give
the identical key, modelled here as the pair of tables. -/
structure AnalyzerState where
  onboardingDf : Option OnbTable
  transactionDf : Option TxTable
  depositDf : Option TxTable
  cache : List ((Option OnbTable × Option TxTable) × MetricsRecord)
deriving DecidableEq, Repr

/-- Dictionary lookup in the memoisation cache. -/
def lookupCache
    (c : List ((Option OnbTable × Option TxTable) × MetricsRecord))
    (k : Option OnbTable × Option TxTable) : Option MetricsRecord :=
  match c with
  | [] => none
  | (k', r) :: rest => if k = k' then some r else lookupCache rest k

/-- Method `calculate_all_metrics` (`Analyzer.py` lines 137-177): cache lookup,
early default return when either dataframe is `None` (not cached), else
the three metric phases in order, storing the result in the cache. -/
def calculateAllMetrics (cfg : AnalysisConfig) (st : AnalyzerState) :
    Except String (MetricsRecord × AnalyzerState) :=
  let key := (st.onboardingDf, st.transactionDf)
  match lookupCache st.cache key with
  | some r => .ok (r, st)
  | none =>
    match st.onboardingDf, st.transactionDf with
    | some onb, some tx =>
      match calcAgentMetrics cfg onb (defaultMetrics cfg) with
      | .error e => .error e
      | .ok m1 =>
        match calcTransactionMetrics cfg tx st.depositDf m1 with
        | .error e => .error e
        | .ok m2 =>
          match calcPerformanceMetrics cfg onb st.depositDf m2 with
          | .error e => .error e
          | .ok m3 => .ok (m3, { st with cache := (key, m3) :: st.cache })
    | _, _ => .ok (defaultMetrics cfg, st)

/-- The `load_and_preprocess_data` + `calculate_all_metrics` pipeline of
`app.py`: both files loaded, so `deposit_df` exists and the cache starts
empty.  `_load_onboarding_data` is modelled for inputs whose four required
onboarding columns exist (the `usecols` read succeeded). -/
def initState (cfg : AnalysisConfig) (onbRaw : OnbTable) (txRaw : TxTable) :
    AnalyzerState :=
  let lt := loadTransactionData cfg txRaw
  { onboardingDf := some (loadOnboarding onbRaw)
    transactionDf := some lt.1
    depositDf := some lt.2
    cache := [] }

/-!
## The `LargeFileAnalyzer` variant (`src/utils/large_file_analyzer.py`)

Its preprocessing cleans each chunk in place (upper/strip of the text
columns, `Created At` parse), extracts the deposit rows from the cleaned
but NOT year-filtered chunk, and separately year-filters the cleaned chunk
(`_process_transaction_chunk` / `_extract_deposits_from_chunk`, lines
245-294).  Chunking is sequential concatenation, so the chunks are
modelled as one combined table.  When `Created At` is absent no year
filter is applied and the table is kept whole. -/

/-- Combined effect of `_process_transaction_chunk` (year table) and
`_extract_deposits_from_chunk` (deposit table) over the concatenated
chunks. -/
def largePreprocessTx (cfg : AnalysisConfig) (t : TxTable) :
    TxTable × TxTable :=
  let cleaned : List TxRow := t.rows.map loadTxRow
  let txYearRows :=
    if t.cols.createdAt then
      cleaned.filter (fun r => rowYear r == some cfg.year)
    else cleaned
  ({ cols := t.cols, rows := txYearRows },
   { cols := t.cols, rows := cleaned.filter (rowIsDeposit cfg t.cols) })

/-- Function `_calculate_metrics` (`large_file_analyzer.py` lines 329-463) over the
preprocessed onboarding table, the concatenated year-filtered transaction
chunks and the concatenated deposit chunks.  Every column access except
the onboarding `Status` one (line 353) is guarded by a presence test, so
that is the only `KeyError`.  Aggregating `+=` per chunk equals computing
on the concatenation. -/
def largeCalcMetrics (cfg : AnalysisConfig) (onb : OnbTable)
    (txYear : TxTable) (dep : TxTable) : Except String MetricsRecord :=
  let r0 := defaultMetrics cfg
  if !onb.cols.status then .error "KeyError: Status" else
  let dfActive := onb.rows.filter rowIsActive
  let taa := if onb.cols.entity then countEntity dfActive "AGENT" else 0
  let tat := if onb.cols.entity then countEntity dfActive "AGENT TELLER" else 0
  let dfOnboarded := onb.rows.filter
    (fun r => (r.regStamp.map Stamp.year == some cfg.year) && rowIsActive r)
  let obTotal := if onb.cols.regDate then dfOnboarded.length else 0
  let obAgents :=
    if onb.cols.regDate && onb.cols.entity then countEntity dfOnboarded "AGENT"
    else 0
  let obTellers :=
    if onb.cols.regDate && onb.cols.entity then
      countEntity dfOnboarded "AGENT TELLER"
    else 0
  let vol : Int :=
    if txYear.cols.amount then (txYear.rows.filterMap (fun r => r.amount)).sum
    else 0
  let succ : Nat :=
    if txYear.cols.status then
      countStatus txYear.rows "SUCCESS" + countStatus txYear.rows "COMPLETED"
    else 0
  let fail : Nat :=
    if txYear.cols.status then
      countStatus txYear.rows "FAILED" + countStatus txYear.rows "REJECTED"
    else 0
  let r1 := { r0 with
              totalActiveAgents := taa
              totalActiveTellers := tat
              onboardedTotal := obTotal
              onboardedAgents := obAgents
              onboardedTellers := obTellers
              transactionVolume := vol
              successfulTransactions := succ
              failedTransactions := fail }
  if dep.rows.isEmpty then .ok r1 else
  let withTellers :=
    if dep.cols.parentUserId then
      distinctCount (dep.rows.filterMap (fun r => r.parentUserId))
    else 0
  let withoutTellers : Int :=
    if dep.cols.parentUserId then max 0 ((taa : Int) - (withTellers : Int))
    else 0
  let users := depUsers dep.rows
  let activeOverall :=
    if dep.cols.userId then
      (users.filter (fun u => cfg.minDepositsForActive ≤ userCount dep.rows u)).length
    else 0
  let inactiveOverall :=
    if dep.cols.userId then
      (users.filter (fun u => userCount dep.rows u < cfg.minDepositsForActive)).length
    else 0
  let monthlyDeps :=
    if dep.cols.createdAt then
      (List.range 12).map (fun i => monthCount dep.rows (i + 1))
    else List.replicate 12 0
  let monthlyActive :=
    if dep.cols.createdAt && dep.cols.userId then
      (List.range 12).map (fun i =>
        let monthRows := dep.rows.filter (fun r => rowMonth r == some (i + 1))
        ((depUsers monthRows).filter
            (fun u => cfg.minDepositsForActive ≤ userCount monthRows u)).length)
    else List.replicate 12 0
  .ok { r1 with
        agentsWithTellers := withTellers
        agentsWithoutTellers := withoutTellers
        activeUsersOverall := activeOverall
        inactiveUsersOverall := inactiveOverall
        monthlyDeposits := monthlyDeps
        monthlyActiveUsers := monthlyActive }

/-- The `calculate_all_metrics` pipeline of `LargeFileAnalyzer` on two raw
tables (preprocess onboarding, preprocess/split transactions, compute). -/
def largeRun (cfg : AnalysisConfig) (onbRaw : OnbTable) (txRaw : TxTable) :
    Except String MetricsRecord :=
  let p := largePreprocessTx cfg txRaw
  largeCalcMetrics cfg (loadOnboarding onbRaw) p.1 p.2

/-- An onboarding table with all four expected columns. -/
def allOnbCols : OnbCols :=
  { accountId := true, entity := true, status := true, regDate := true }

/-- A transaction table with all nine expected columns. -/
def allTxCols : TxCols :=
  { userId := true, parentUserId := true, entityName := true
    serviceName := true, transactionType := true, productName := true
    createdAt := true, amount := true, status := true }

/-- A transaction row with every cell missing. -/
def blankTxRow : TxRow :=
  { userId := none, parentUserId := none, entityName := none
    serviceName := none, transactionType := none, productName := none
    createdAt := none, amount := none, status := none }

section Lemmas

variable {α : Type}

theorem length_filter_not_partition (l : List α) (p : α → Bool) :
    (l.filter p).length + (l.filter (fun a => !(p a))).length = l.length := by
  induction l with
  | nil => simp
  | cons a t ih => cases h : p a <;> simp [List.filter_cons, h] <;> omega

theorem length_filter_or_disjoint (l : List α) (p q : α → Bool)
    (h : ∀ a, p a = true → q a = false) :
    (l.filter (fun a => p a || q a)).length
      = (l.filter p).length + (l.filter q).length := by
  induction l with
  | nil => simp
  | cons a t ih =>
    cases hp : p a
    · cases hq : q a <;> simp [List.filter_cons, hp, hq, ih] <;> omega
    · have hq := h a hp
      simp [List.filter_cons, hp, hq, ih]
      omega

theorem sum_map_add_pointwise (f g : Nat → Nat) (l : List Nat) :
    (l.map (fun i => f i + g i)).sum = (l.map f).sum + (l.map g).sum := by
  induction l with
  | nil => rfl
  | cons a t ih =>
    simp only [List.map_cons, List.sum_cons, ih]
    omega

theorem monthCount_cons (r : TxRow) (t : List TxRow) (m : Nat) :
    monthCount (r :: t) m
      = (if rowMonth r == some m then 1 else 0) + monthCount t m := by
  cases h : rowMonth r == some m <;>
    simp [monthCount, List.filter_cons, h] <;> omega

theorem bucket_sum (r : TxRow) :
    ((List.range 12).map
        (fun i => if rowMonth r == some (i + 1) then 1 else 0)).sum
      = if (r.createdAt).isSome then 1 else 0 := by
  cases h : r.createdAt with
  | none => simp [rowMonth, h]
  | some st =>
    have hfin : ∀ m : Fin 12,
        ((List.range 12).map
            (fun i => if (some (m.val + 1) : Option Nat) == some (i + 1)
              then 1 else 0)).sum = 1 := by decide
    simpa [rowMonth, h, Stamp.month] using hfin st.monthIx

theorem sum_monthCount (rows : List TxRow) :
    ((List.range 12).map (fun i => monthCount rows (i + 1))).sum
      = (rows.filter (fun r => (r.createdAt).isSome)).length := by
  induction rows with
  | nil => simp [monthCount]
  | cons r t ih =>
    have hsum :
        ((List.range 12).map (fun i => monthCount (r :: t) (i + 1))).sum
          = ((List.range 12).map
              (fun i => if rowMonth r == some (i + 1) then 1 else 0)).sum
            + ((List.range 12).map (fun i => monthCount t (i + 1))).sum := by
      simp only [monthCount_cons]
      exact sum_map_add_pointwise _ _ _
    rw [hsum, ih, bucket_sum]
    cases h : r.createdAt <;>
      simp [List.filter_cons, h] <;> omega

theorem countEntity_filter (l : List OnbRow) (p : OnbRow → Bool) (v : String) :
    countEntity (l.filter p) v
      = (l.filter (fun r => p r && (r.entity == some v))).length := by
  induction l with
  | nil => rfl
  | cons a t ih =>
    cases hp : p a <;> cases he : a.entity == some v <;>
      simp [countEntity, List.filter_cons, hp, he] <;>
      simpa [countEntity] using ih

theorem cellMatches_iff (kw : String) (c : Option String) :
    cellMatches kw c = true ↔
      ∃ s, c = some s ∧ strContains (strUpper s) (strUpper kw) = true := by
  cases c <;> simp [cellMatches]

end Lemmas

/-- C7: an entity row of the loaded onboarding table is classified as NOT
active exactly when its normalised status is one of the four deny-listed
strings TERMINATED, BLOCKED, SUSPENDED, INACTIVE; every other status,
unrecognised or missing, classifies the row as active (open-world
deny-list). -/
theorem claim_C7_active_deny_list (r : OnbRow) :
    rowIsActive (loadOnboardingRow r) = false ↔
      ∃ s ∈ terminatedStatus, normCell r.status = some s := by
  unfold loadOnboardingRow rowIsActive
  cases h : normCell r.status with
  | none => simp [h]
  | some s =>
    simp only [h, Bool.not_eq_false', List.elem_iff, Option.some.injEq]
    constructor
    · intro hm
      exact ⟨s, by simpa [List.elem_iff] using hm, rfl⟩
    · rintro ⟨s', hs', rfl⟩
      simpa [List.elem_iff] using hs'

/-- An entity row with the unrecognised status `pending review`. -/
def c7Row : OnbRow :=
  { accountId := none, entity := none, status := some "pending review"
    regStamp := none }

/-- Witness for C7: a row with the unrecognised status `pending review`
is classified as active (open world). -/
theorem claim_C7_witness :
    rowIsActive (loadOnboardingRow c7Row) = true := by
  cases hx : rowIsActive (loadOnboardingRow c7Row) with
  | true => rfl
  | false =>
    exfalso
    obtain ⟨s, hs, hn⟩ := (claim_C7_active_deny_list c7Row).mp hx
    have he : normCell c7Row.status = some "PENDING REVIEW" := by decide
    rw [he] at hn
    injection hn with hinj
    subst hinj
    revert hs
    decide

/-- C6: a transaction row lands in the deposit subset produced by
`_load_transaction_data` iff it is a cleaned row of the input table and at
least one of its `Service Name` / `Transaction Type` / `Product Name`
cells contains at least one configured deposit keyword as a
case-insensitive substring — a logical OR over all field/keyword
combinations. -/
theorem claim_C6_deposit_keyword_or (cfg : AnalysisConfig) (t : TxTable)
    (r : TxRow) (hs : t.cols.serviceName = true)
    (ht : t.cols.transactionType = true) (hp : t.cols.productName = true) :
    r ∈ (loadTransactionData cfg t).2.rows ↔
      (r ∈ t.rows.map loadTxRow ∧
        ∃ kw ∈ cfg.depositKeywords,
          ∃ c ∈ [r.serviceName, r.transactionType, r.productName],
            ∃ s, c = some s ∧
              strContains (strUpper s) (strUpper kw) = true) := by
  show r ∈ (t.rows.map loadTxRow).filter (rowIsDeposit cfg t.cols) ↔ _
  rw [List.mem_filter]
  refine and_congr_right (fun _ => ?_)
  simp only [rowIsDeposit, List.any_eq_true, hs, ht, hp, Bool.true_and,
    Bool.or_eq_true, cellMatches_iff, List.mem_cons, List.not_mem_nil,
    or_false]
  constructor
  · rintro ⟨kw, hkw, hd⟩
    rcases hd with (h | h) | h
    · exact ⟨kw, hkw, r.serviceName, Or.inl rfl, h⟩
    · exact ⟨kw, hkw, r.transactionType, Or.inr (Or.inl rfl), h⟩
    · exact ⟨kw, hkw, r.productName, Or.inr (Or.inr rfl), h⟩
  · rintro ⟨kw, hkw, c, (rfl | rfl | rfl), h⟩
    · exact ⟨kw, hkw, Or.inl (Or.inl h)⟩
    · exact ⟨kw, hkw, Or.inl (Or.inr h)⟩
    · exact ⟨kw, hkw, Or.inr h⟩

/-- A transaction row whose (lower-case, padded) service label contains a
deposit keyword. -/
def c6Row : TxRow :=
  { blankTxRow with userId := some "U1", serviceName := some " cash deposit " }

/-- A one-row transaction table used to instantiate C6. -/
def c6Table : TxTable := { cols := allTxCols, rows := [c6Row] }

/-- Witness for C6: the concrete row ` cash deposit ` is in the deposit
subset, by the theorem's right-to-left direction at keyword DEPOSIT. -/
theorem claim_C6_witness :
    loadTxRow c6Row ∈ (loadTransactionData defaultConfig c6Table).2.rows := by
  refine (claim_C6_deposit_keyword_or defaultConfig c6Table (loadTxRow c6Row)
    rfl rfl rfl).mpr ⟨by decide, "DEPOSIT", by decide,
      (loadTxRow c6Row).serviceName, by decide, "CASH DEPOSIT", by decide,
      by decide⟩

/-- An active entity whose type string strictly contains TELLER without
being exactly AGENT TELLER. -/
def c1Row : OnbRow :=
  { accountId := some "E1", entity := some "Senior Agent Teller"
    status := some "Active", regStamp := some ⟨2025, 0⟩ }

/-- A one-row onboarding table used to refute C1. -/
def c1Table : OnbTable := { cols := allOnbCols, rows := [c1Row] }

/-- Counterexample to C1: the normalised entity type SENIOR AGENT TELLER
contains TELLER as a substring, and the row is active and registered in
the target year, yet `_calculate_agent_metrics` counts zero tellers in
both `total_active_tellers` and `onboarded_tellers`: the code matches the
entity type by exact equality with AGENT TELLER, not by substring. -/
theorem claim_C1_counterexample :
    strContains (strUpper (strTrim "Senior Agent Teller")) "TELLER" = true ∧
    (calcAgentMetrics defaultConfig (loadOnboarding c1Table)
        (defaultMetrics defaultConfig)).map
        (fun u => (u.totalActiveTellers, u.onboardedTellers))
      = .ok (0, 0) := by
  exact ⟨by decide, rfl⟩

/-- C1 (amended): an entity row is counted in
`total_active_tellers` / `onboarded_tellers` iff it is active
(respectively: active and registered in the target year) and its
normalised entity type equals AGENT TELLER exactly; entity types that
merely contain TELLER as a substring, such as SENIOR AGENT TELLER, are
not counted. -/
theorem claim_C1_teller_exact (cfg : AnalysisConfig) (t : OnbTable)
    (m u : MetricsRecord)
    (h : calcAgentMetrics cfg (loadOnboarding t) m = .ok u) :
    u.totalActiveTellers
      = ((t.rows.map loadOnboardingRow).filter
          (fun r => rowIsActive r && (r.entity == some "AGENT TELLER"))).length
    ∧ u.onboardedTellers
      = ((t.rows.map loadOnboardingRow).filter
          (fun r =>
            ((r.regStamp.map Stamp.year == some cfg.year) && rowIsActive r)
              && (r.entity == some "AGENT TELLER"))).length := by
  unfold calcAgentMetrics at h
  split at h
  · cases h
  · split at h
    · cases h
    · split at h
      · cases h
      · injection h with h
        subst h
        constructor
        · simpa using countEntity_filter (t.rows.map loadOnboardingRow)
            rowIsActive "AGENT TELLER"
        · simpa using countEntity_filter (t.rows.map loadOnboardingRow)
            (fun r =>
              (r.regStamp.map Stamp.year == some cfg.year) && rowIsActive r)
            "AGENT TELLER"

/-- An active entity whose padded lower-case type normalises to exactly
AGENT TELLER. -/
def c1wRow : OnbRow :=
  { accountId := some "E2", entity := some " agent teller"
    status := some "OPEN", regStamp := none }

/-- A one-row onboarding table used to instantiate the amended C1. -/
def c1wTable : OnbTable := { cols := allOnbCols, rows := [c1wRow] }

/-- Witness for the amended C1: a row normalising to AGENT TELLER is
counted once among active tellers. -/
theorem claim_C1_witness :
    (calcAgentMetrics defaultConfig (loadOnboarding c1wTable)
        (defaultMetrics defaultConfig)).map (fun u => u.totalActiveTellers)
      = .ok 1 := by
  obtain ⟨u, hu⟩ :
      ∃ u, calcAgentMetrics defaultConfig (loadOnboarding c1wTable)
        (defaultMetrics defaultConfig) = .ok u := ⟨_, rfl⟩
  rw [hu]
  simp only [Except.map]
  refine congrArg Except.ok ?_
  rw [(claim_C1_teller_exact defaultConfig c1wTable _ u hu).1]
  decide

/-- A 2025 transaction whose status is DECLINED. -/
def c2Row1 : TxRow :=
  { blankTxRow with status := some "DECLINED", createdAt := some ⟨2025, 0⟩ }

/-- A 2025 transaction whose status is lower-case `success`. -/
def c2Row2 : TxRow :=
  { blankTxRow with status := some "success", createdAt := some ⟨2025, 0⟩ }

/-- A two-row transaction table used to refute C2. -/
def c2Table : TxTable := { cols := allTxCols, rows := [c2Row1, c2Row2] }

/-- Counterexample to C2: DECLINED contains the pattern DECLINED and
`success` contains SUCCESS case-insensitively, so the claim counts one
failed and one successful transaction — but
`_calculate_transaction_metrics` counts both buckets as zero: it matches
the raw status cell by exact, case-sensitive equality against
SUCCESS/COMPLETED/FAILED/REJECTED only. -/
theorem claim_C2_counterexample :
    strContains "DECLINED" "DECLINED" = true ∧
    strContains (strUpper "success") (strUpper "SUCCESS") = true ∧
    (calcTransactionMetrics defaultConfig
        (loadTransactionData defaultConfig c2Table).1
        (some (loadTransactionData defaultConfig c2Table).2)
        (defaultMetrics defaultConfig)).map
        (fun u => (u.successfulTransactions, u.failedTransactions))
      = .ok (0, 0) := by
  exact ⟨by decide, by decide, rfl⟩

/-- C2 (amended): a transaction row of the year-filtered table is counted
in `successful_transactions` iff its raw status cell equals SUCCESS or
COMPLETED exactly, and in `failed_transactions` iff it equals FAILED or
REJECTED exactly (case-sensitive equality, not substring; the status
column is never normalised); any other status is counted in neither
bucket. -/
theorem claim_C2_status_exact (cfg : AnalysisConfig) (txYear : TxTable)
    (dep : Option TxTable) (m u : MetricsRecord)
    (hst : txYear.cols.status = true)
    (h : calcTransactionMetrics cfg txYear dep m = .ok u) :
    u.successfulTransactions
      = (txYear.rows.filter (fun r =>
          (r.status == some "SUCCESS")
            || (r.status == some "COMPLETED"))).length
    ∧ u.failedTransactions
      = (txYear.rows.filter (fun r =>
          (r.status == some "FAILED")
            || (r.status == some "REJECTED"))).length := by
  have hdisj : ∀ (v w : String), v ≠ w → ∀ r : TxRow,
      (r.status == some v) = true → (r.status == some w) = false := by
    intro v w hvw r hr
    have : r.status = some v := by simpa using hr
    simp [this, hvw]
  have hsf : (txYear.rows.filter (fun r =>
        (r.status == some "SUCCESS") || (r.status == some "COMPLETED"))).length
      = countStatus txYear.rows "SUCCESS"
        + countStatus txYear.rows "COMPLETED" :=
    length_filter_or_disjoint _ _ _ (hdisj _ _ (by decide))
  have hff : (txYear.rows.filter (fun r =>
        (r.status == some "FAILED") || (r.status == some "REJECTED"))).length
      = countStatus txYear.rows "FAILED"
        + countStatus txYear.rows "REJECTED" :=
    length_filter_or_disjoint _ _ _ (hdisj _ _ (by decide))
  rcases dep with _ | d
  · unfold calcTransactionMetrics at h
    split at h
    · next hemp =>
      injection h with h
      subst h
      have hnil : txYear.rows = [] := by simpa using hemp
      simp [hnil]
    · simp only [hst, if_true] at h
      injection h with h
      subst h
      exact ⟨hsf.symm, hff.symm⟩
  · unfold calcTransactionMetrics at h
    split at h
    · next hemp =>
      injection h with h
      subst h
      have hnil : txYear.rows = [] := by simpa using hemp
      simp [hnil]
    · simp only [hst, if_true] at h
      split at h
      · injection h with h
        subst h
        exact ⟨hsf.symm, hff.symm⟩
      · split at h
        · cases h
        · injection h with h
          subst h
          exact ⟨hsf.symm, hff.symm⟩

/-- A four-row year table with statuses SUCCESS, COMPLETED, REJECTED and
PENDING. -/
def c2wTable : TxTable :=
  { cols := allTxCols
    rows := [{ blankTxRow with status := some "SUCCESS" },
             { blankTxRow with status := some "COMPLETED" },
             { blankTxRow with status := some "REJECTED" },
             { blankTxRow with status := some "PENDING" }] }

/-- Witness for the amended C2: two successful, one failed, PENDING in
neither bucket. -/
theorem claim_C2_witness :
    (calcTransactionMetrics defaultConfig c2wTable none
        (defaultMetrics defaultConfig)).map
        (fun u => (u.successfulTransactions, u.failedTransactions))
      = .ok (2, 1) := by
  obtain ⟨u, hu⟩ :
      ∃ u, calcTransactionMetrics defaultConfig c2wTable none
        (defaultMetrics defaultConfig) = .ok u := ⟨_, rfl⟩
  have h := claim_C2_status_exact defaultConfig c2wTable none _ u rfl hu
  rw [hu]
  simp only [Except.map]
  refine congrArg Except.ok ?_
  rw [h.1, h.2]
  decide

/-- Two deposit transactions, one in 2024 and one in the target year
2025. -/
def c3Tx : TxTable :=
  { cols := allTxCols
    rows := [{ blankTxRow with
                 serviceName := some "DEPOSIT", createdAt := some ⟨2024, 2⟩ },
             { blankTxRow with
                 serviceName := some "DEPOSIT", createdAt := some ⟨2025, 2⟩ }] }

/-- An empty onboarding table with all columns, used alongside `c3Tx`. -/
def c3Onb : OnbTable := { cols := allOnbCols, rows := [] }

/-- Counterexample to C3: the deposit subset holds a 2024 and a 2025
deposit; the deposit subset restricted to the target year 2025 has one
row, but the twelve monthly deposit counts sum to 2 — the deposit subset
is never filtered by year, so out-of-year deposits are included. -/
theorem claim_C3_counterexample :
    (largeCalcMetrics defaultConfig (loadOnboarding c3Onb)
        (largePreprocessTx defaultConfig c3Tx).1
        (largePreprocessTx defaultConfig c3Tx).2).map
        (fun u => u.monthlyDeposits.sum) = .ok 2 ∧
    (((largePreprocessTx defaultConfig c3Tx).2).rows.filter
        (fun r => rowYear r == some defaultConfig.year)).length = 1 := by
  exact ⟨rfl, by decide⟩

/-- C3 (amended): the sum of the twelve monthly deposit counts equals the
number of rows of the deposit subset with a parseable timestamp — over
ALL years, since the deposit subset is not restricted to the target
year.  (Rows with a missing timestamp are excluded from both sides.) -/
theorem claim_C3_monthly_sum (cfg : AnalysisConfig) (onb : OnbTable)
    (txY dep : TxTable) (u : MetricsRecord)
    (hcr : dep.cols.createdAt = true)
    (h : largeCalcMetrics cfg onb txY dep = .ok u) :
    u.monthlyDeposits.sum
      = (dep.rows.filter (fun r => (r.createdAt).isSome)).length := by
  simp only [largeCalcMetrics] at h
  split at h
  · cases h
  · split at h
    · next hemp =>
      injection h with h
      subst h
      have hnil : dep.rows = [] := by simpa using hemp
      simp [hnil, defaultMetrics]
    · injection h with h
      subst h
      simp only [hcr, if_true]
      exact sum_monthCount dep.rows

/-- Witness for the amended C3: on the concrete two-deposit table the
monthly counts sum to the number of dated deposit rows. -/
theorem claim_C3_witness :
    (largeCalcMetrics defaultConfig (loadOnboarding c3Onb)
        (largePreprocessTx defaultConfig c3Tx).1
        (largePreprocessTx defaultConfig c3Tx).2).map
      (fun u => u.monthlyDeposits.sum)
      = .ok ((((largePreprocessTx defaultConfig c3Tx).2).rows.filter
          (fun r => (r.createdAt).isSome)).length) := by
  obtain ⟨u, hu⟩ :
      ∃ u, largeCalcMetrics defaultConfig (loadOnboarding c3Onb)
          (largePreprocessTx defaultConfig c3Tx).1
          (largePreprocessTx defaultConfig c3Tx).2 = .ok u := ⟨_, rfl⟩
  rw [hu]
  simp only [Except.map]
  exact congrArg Except.ok
    (claim_C3_monthly_sum defaultConfig (loadOnboarding c3Onb) _ _ u rfl hu)

/-- An onboarding table whose `Status` column is absent. -/
def c4Onb : OnbTable :=
  { cols := { allOnbCols with status := false }
    rows := [{ accountId := some "A", entity := some "AGENT",
                 status := none, regStamp := none }] }

/-- Analyzer state holding `c4Onb` and an empty transaction table. -/
def c4St : AnalyzerState :=
  { onboardingDf := some c4Onb
    transactionDf := some { cols := allTxCols, rows := [] }
    depositDf := some { cols := allTxCols, rows := [] }
    cache := [] }

/-- Counterexample to C4: with the entity `Status` column absent,
`calculate_all_metrics` raises `KeyError` instead of returning a record
with defaulted metrics. -/
theorem claim_C4_counterexample :
    calculateAllMetrics defaultConfig c4St = .error "KeyError: Status" := by
  rfl

/-- C4 (amended): in the chunked engine every missing column of either
table other than the entity `Status` column is tolerated — the affected
metrics default to zero and a complete record is returned; a missing
`Status` column raises `KeyError` (in both engines) instead of
defaulting. -/
theorem claim_C4_missing_column_defaults (cfg : AnalysisConfig)
    (onb : OnbTable) (txY dep : TxTable) (hst : onb.cols.status = true) :
    ∃ u, largeCalcMetrics cfg onb txY dep = .ok u := by
  simp only [largeCalcMetrics, hst, Bool.not_true, Bool.false_eq_true,
    if_false]
  split
  · exact ⟨_, rfl⟩
  · exact ⟨_, rfl⟩

/-- A transaction table with rows but with neither an amount nor a status
nor a user/parent/timestamp column. -/
def c4wTx : TxTable :=
  { cols := { userId := false, parentUserId := false, entityName := false
              serviceName := true, transactionType := false
              productName := false, createdAt := false, amount := false
              status := false }
    rows := [{ blankTxRow with
                 serviceName := some "DEPOSIT", status := some "SUCCESS",
                 amount := some 7 }] }

/-- Witness for the amended C4: with many expected transaction columns
absent (but `Status` present on the entity table) the chunked engine
still returns a complete record. -/
theorem claim_C4_witness :
    (largeCalcMetrics defaultConfig { cols := allOnbCols, rows := [] }
      c4wTx (largePreprocessTx defaultConfig c4wTx).2).isOk = true := by
  obtain ⟨u, hu⟩ := claim_C4_missing_column_defaults defaultConfig
    { cols := allOnbCols, rows := [] } c4wTx
    (largePreprocessTx defaultConfig c4wTx).2 rfl
  rw [hu]
  rfl

/-- One active AGENT entity. -/
def c5Onb : OnbTable :=
  { cols := allOnbCols
    rows := [{ accountId := some "A1", entity := some "AGENT",
                 status := some "ACTIVE", regStamp := none }] }

/-- A transaction table with one non-deposit 2025 transaction, so the
deposit subset is empty. -/
def c5Tx : TxTable :=
  { cols := allTxCols
    rows := [{ blankTxRow with
                 serviceName := some "BILL PAY", createdAt := some ⟨2025, 0⟩,
                 userId := some "U9" }] }

/-- Counterexample to C5: with an empty deposit subset and one active
agent, the code leaves `agents_without_tellers` at 0 instead of the
claimed `max(0, activeAgentCount − agentsWithTellers) = 1`. -/
theorem claim_C5_counterexample :
    (largeRun defaultConfig c5Onb c5Tx).map
        (fun u => (u.totalActiveAgents, u.agentsWithTellers,
                   u.agentsWithoutTellers))
      = .ok (1, 0, 0) ∧
    (0 : Int) ≠ max 0 ((1 : Int) - (0 : Int)) := by
  exact ⟨rfl, by decide⟩

/-- C5 (amended): when the deposit subset is non-empty and has the parent
column, `agents_with_tellers` is the number of distinct non-null
`Parent User Identifier` values of the deposit subset and
`agents_without_tellers` is `max(0, activeAgentCount − agentsWithTellers)`
(the chunked engine uses the active-AGENT row count as
`activeAgentCount`); when the deposit subset is empty both stay 0.  In
every case `agents_without_tellers ≥ 0`. -/
theorem claim_C5_agents_with_tellers (cfg : AnalysisConfig)
    (onb : OnbTable) (txY dep : TxTable) (u : MetricsRecord)
    (h : largeCalcMetrics cfg onb txY dep = .ok u)
    (hne : dep.rows ≠ []) (hpc : dep.cols.parentUserId = true) :
    u.agentsWithTellers
      = distinctCount (dep.rows.filterMap (fun r => r.parentUserId))
    ∧ u.agentsWithoutTellers
        = max 0 ((u.totalActiveAgents : Int) - (u.agentsWithTellers : Int))
    ∧ 0 ≤ u.agentsWithoutTellers := by
  simp only [largeCalcMetrics] at h
  split at h
  · cases h
  · split at h
    · next hemp =>
      exact absurd (by simpa using hemp) hne
    · injection h with h
      subst h
      refine ⟨by simp [hpc], by simp [hpc], ?_⟩
      simp [hpc]

/-- A deposit subset with two distinct parents over three rows, plus the
`c5Onb` single-agent roster. -/
def c5wDep : TxTable :=
  { cols := allTxCols
    rows := [{ blankTxRow with
                 parentUserId := some "P1", userId := some "T1",
                 createdAt := some ⟨2025, 0⟩ },
             { blankTxRow with
                 parentUserId := some "P2", userId := some "T2",
                 createdAt := some ⟨2025, 1⟩ },
             { blankTxRow with
                 parentUserId := some "P1", userId := some "T1",
                 createdAt := some ⟨2025, 1⟩ }] }

/-- Witness for the amended C5: two distinct parents, one active agent,
`agents_without_tellers = max(0, 1 − 2) = 0`. -/
theorem claim_C5_witness :
    (largeCalcMetrics defaultConfig (loadOnboarding c5Onb)
        { cols := allTxCols, rows := [] } c5wDep).map
        (fun u => (u.agentsWithTellers, u.agentsWithoutTellers))
      = .ok (2, 0) := by
  obtain ⟨u, hu⟩ :
      ∃ u, largeCalcMetrics defaultConfig (loadOnboarding c5Onb)
        { cols := allTxCols, rows := [] } c5wDep = .ok u := ⟨_, rfl⟩
  have h := claim_C5_agents_with_tellers defaultConfig (loadOnboarding c5Onb)
    _ c5wDep u hu (by decide) rfl
  rw [hu]
  simp only [Except.map]
  refine congrArg Except.ok ?_
  have h1 : u.agentsWithTellers = 2 := by rw [h.1]; decide
  have hta : u.totalActiveAgents = 1 := by
    have h2 := congrArg (fun e => match e with
      | Except.ok v => v.totalActiveAgents
      | Except.error _ => 0) hu
    simpa using h2.symm
  have h3 : u.agentsWithoutTellers = 0 := by
    rw [h.2.1, h1, hta]
    decide
  rw [h1, h3]

/-- A deposit by user U1 in month 1 of 2025. -/
def c8DepRow1 : TxRow :=
  { blankTxRow with
    userId := some "U1", parentUserId := some "P"
    serviceName := some "DEPOSIT", createdAt := some ⟨2025, 0⟩ }

/-- A deposit by user U2 in month 1 of 2025. -/
def c8DepRow2 : TxRow :=
  { blankTxRow with
    userId := some "U2", parentUserId := some "P"
    serviceName := some "DEPOSIT", createdAt := some ⟨2025, 0⟩ }

/-- A transaction table where U1 makes exactly 20 and U2 exactly 19
deposits in month 1. -/
def c8Tx : TxTable :=
  { cols := allTxCols
    rows := List.replicate 20 c8DepRow1 ++ List.replicate 19 c8DepRow2 }

/-- A one-agent onboarding roster used with `c8Tx`. -/
def c8Onb : OnbTable :=
  { cols := allOnbCols
    rows := [{ accountId := some "A1", entity := some "AGENT",
                 status := some "ACTIVE", regStamp := none }] }

/-- C8 (code bug in `Analyzer.py`): at the threshold 20, the chunked
engine counts U1 (exactly 20 deposits in month 1) as monthly-active and
not U2 (19 deposits) — the boundary is inclusive and per-month, exactly
as claimed; but `Analyzer.py`'s `_calculate_performance_metrics` assigns
into `metrics['monthly_active_users']`, a key its local dict never
defines, so on the same input `calculate_all_metrics` raises `KeyError`
instead of returning the record. -/
theorem claim_C8_threshold :
    calculateAllMetrics defaultConfig (initState defaultConfig c8Onb c8Tx)
        = .error "KeyError: monthly_active_users" ∧
    (largeRun defaultConfig c8Onb c8Tx).map
        (fun u => (u.monthlyActiveUsers, u.activeUsersOverall,
                   u.inactiveUsersOverall))
      = .ok (1 :: List.replicate 11 0, 1, 1) := by
  exact ⟨rfl, rfl⟩

/-- C9: `calculate_all_metrics` is idempotent — if a call on a state
returns a record, calling again on the resulting state (identical
dataframes and config) returns the identical record, via the
`_processed_data` cache keyed by the input tables. -/
theorem claim_C9_idempotent (cfg : AnalysisConfig) (st : AnalyzerState)
    (r : MetricsRecord) (st' : AnalyzerState)
    (h : calculateAllMetrics cfg st = .ok (r, st')) :
    ∃ st'', calculateAllMetrics cfg st' = .ok (r, st'') := by
  unfold calculateAllMetrics at h ⊢
  cases hl : lookupCache st.cache (st.onboardingDf, st.transactionDf) with
  | some r0 =>
    simp only [hl] at h
    injection h with h
    obtain ⟨h1, h2⟩ := Prod.mk.injEq .. ▸ h
    subst h1
    subst h2
    exact ⟨st, by simp [hl]⟩
  | none =>
    simp only [hl] at h
    cases ho : st.onboardingDf with
    | none =>
      simp only [ho] at h
      injection h with h
      obtain ⟨h1, h2⟩ := Prod.mk.injEq .. ▸ h
      subst h1
      subst h2
      rw [ho] at hl
      exact ⟨st, by simp [hl, ho]⟩
    | some onb =>
      simp only [ho] at h
      cases ht : st.transactionDf with
      | none =>
        simp only [ht] at h
        injection h with h
        obtain ⟨h1, h2⟩ := Prod.mk.injEq .. ▸ h
        subst h1
        subst h2
        rw [ho, ht] at hl
        exact ⟨st, by simp [hl, ho, ht]⟩
      | some tx =>
        simp only [ht] at h
        cases hA : calcAgentMetrics cfg onb (defaultMetrics cfg) with
        | error e => simp [hA] at h
        | ok m1 =>
          simp only [hA] at h
          cases hT : calcTransactionMetrics cfg tx st.depositDf m1 with
          | error e => simp [hT] at h
          | ok m2 =>
            simp only [hT] at h
            cases hP : calcPerformanceMetrics cfg onb st.depositDf m2 with
            | error e => simp [hP] at h
            | ok m3 =>
              simp only [hP] at h
              injection h with h
              obtain ⟨h1, h2⟩ := Prod.mk.injEq .. ▸ h
              subst h1
              subst h2
              refine ⟨{ st with
                cache := ((some onb, some tx), m3) :: st.cache }, ?_⟩
              simp [lookupCache, ho, ht]

/-- An analyzer state over empty (all-columns) tables with an empty
cache. -/
def c9St : AnalyzerState :=
  { onboardingDf := some { cols := allOnbCols, rows := [] }
    transactionDf := some { cols := allTxCols, rows := [] }
    depositDf := some { cols := allTxCols, rows := [] }
    cache := [] }

/-- Witness for C9: after one call on `c9St` (which caches its result) a
second call returns the same record. -/
theorem claim_C9_witness :
    (calculateAllMetrics defaultConfig
        { c9St with
          cache := [((c9St.onboardingDf, c9St.transactionDf),
                      defaultMetrics defaultConfig)] }).map
        (fun p => p.1)
      = .ok (defaultMetrics defaultConfig) := by
  obtain ⟨st2, h⟩ := claim_C9_idempotent defaultConfig c9St
    (defaultMetrics defaultConfig)
    { c9St with
      cache := [((c9St.onboardingDf, c9St.transactionDf),
                  defaultMetrics defaultConfig)] } rfl
  rw [h]
  rfl

/-- C10: the overall active/inactive user counts partition exactly the
distinct non-null `User Identifier` values occurring in the deposit
subset — an entity with no deposit rows is counted in neither bucket. -/
theorem claim_C10_user_partition (cfg : AnalysisConfig) (onb : OnbTable)
    (txY dep : TxTable) (u : MetricsRecord)
    (h : largeCalcMetrics cfg onb txY dep = .ok u)
    (hu : dep.cols.userId = true) :
    u.activeUsersOverall + u.inactiveUsersOverall
      = distinctCount (dep.rows.filterMap (fun r => r.userId)) := by
  simp only [largeCalcMetrics] at h
  split at h
  · cases h
  · split at h
    · next hemp =>
      injection h with h
      subst h
      have hnil : dep.rows = [] := by simpa using hemp
      simp [hnil, distinctCount, defaultMetrics]
    · injection h with h
      subst h
      simp only [hu, if_true]
      have hpt : ∀ x ∈ depUsers dep.rows,
          (decide (userCount dep.rows x < cfg.minDepositsForActive))
            = !(decide (cfg.minDepositsForActive ≤ userCount dep.rows x)) := by
        intro x _
        by_cases hx : cfg.minDepositsForActive ≤ userCount dep.rows x <;>
          simp [hx] <;> omega
      rw [List.filter_congr hpt, length_filter_not_partition]
      rfl

/-- A deposit subset with users U1 (twice), U2 (once) and one row with a
missing user identifier. -/
def c10Dep : TxTable :=
  { cols := allTxCols
    rows := [{ blankTxRow with
                 userId := some "U1", createdAt := some ⟨2025, 0⟩ },
             { blankTxRow with
                 userId := some "U1", createdAt := some ⟨2025, 1⟩ },
             { blankTxRow with
                 userId := some "U2", createdAt := some ⟨2025, 1⟩ },
             { blankTxRow with createdAt := some ⟨2025, 1⟩ }] }

/-- Witness for C10: two distinct users, so the two buckets sum to 2. -/
theorem claim_C10_witness :
    (largeCalcMetrics defaultConfig { cols := allOnbCols, rows := [] }
        { cols := allTxCols, rows := [] } c10Dep).map
        (fun u => u.activeUsersOverall + u.inactiveUsersOverall)
      = .ok 2 := by
  obtain ⟨u, hu⟩ :
      ∃ u, largeCalcMetrics defaultConfig { cols := allOnbCols, rows := [] }
        { cols := allTxCols, rows := [] } c10Dep = .ok u := ⟨_, rfl⟩
  rw [hu]
  simp only [Except.map]
  refine congrArg Except.ok ?_
  rw [claim_C10_user_partition defaultConfig _ _ c10Dep u hu rfl]
  decide

end WalletDashboard
